import Mathlib

/-!
Shallow embedding of the nbrgroup view-layer patterns:
the debounced customer search in the ProductInsert form, and the
filtered paginated report loaders in ProductInsertReporting and
CompetitorPriceAnalysisReport, together with proofs of the stated
properties of those components.
-/

namespace NbrGroup

/-! ## Incremental Search Resolver (ProductInsert customer search)

Embeds the debounce effect of the ProductInsert component: on every
change of the search input the effect clears the pending timer; a
non-empty input schedules a 300 ms timer whose callback issues the
customer query and, on completion, stores the response in the
displayed candidate list (errors are only logged).  The embedding is an
event-driven state machine over the browser event loop: input changes,
timer firings and fetch completions are the events. -/

/-- Quiet-period duration of the debounce, in milliseconds. -/
def DEBOUNCE_MS : Nat := 300

/-- Row of the customers collection, restricted to the fields the
search touches. -/
structure Customer where
  id : String
  name : String
  customer_code : String
deriving DecidableEq, Repr

/-- Result of one customer-search fetch: the response rows, or a
backend error message. -/
inductive FetchOutcome where
  | ok (data : List Customer)
  | err (msg : String)
deriving DecidableEq, Repr

/-- Component state of the search session.  A scheduled timer and a
dispatched fetch are identified by the sequence number drawn from
nextId at scheduling time and carry the input string captured by the
effect closure.  dispatched is a ghost log of every request ever
issued, used to state debounce-coalescing properties. -/
structure SearchState where
  customerSearch : String
  pendingTimer : Option (Nat × String)
  inFlight : List (Nat × String)
  filteredCustomers : List Customer
  nextId : Nat
  dispatched : List (Nat × String)
deriving DecidableEq, Repr

/-- State on mount: empty input, no timer, no results. -/
def initialSearchState : SearchState :=
  { customerSearch := ""
    pendingTimer := none
    inFlight := []
    filteredCustomers := []
    nextId := 0
    dispatched := [] }

/-- Events of the search session: an input change (the effect re-runs),
the pending debounce timer firing (the fetch is dispatched), and a
dispatched fetch completing with an outcome. -/
inductive SearchEvent where
  | inputChange (q : String)
  | timerFire
  | fetchComplete (i : Nat) (res : FetchOutcome)

/-- One step of the search session, mirroring the useEffect body of
ProductInsert: the pending timer is always cleared; a non-empty input
schedules a fresh timer capturing the input; an empty input clears the
candidate list immediately and schedules nothing.  A timer firing
dispatches the captured query.  A completion handler removes its fetch
from flight and, with no staleness check, stores the data on success
and only logs on error. -/
def searchStep (s : SearchState) : SearchEvent → SearchState
  | .inputChange q =>
      if q = "" then
        { s with customerSearch := q, pendingTimer := none, filteredCustomers := [] }
      else
        { s with customerSearch := q, pendingTimer := some (s.nextId, q),
                 nextId := s.nextId + 1 }
  | .timerFire =>
      match s.pendingTimer with
      | none => s
      | some t =>
          { s with pendingTimer := none, inFlight := s.inFlight ++ [t],
                   dispatched := s.dispatched ++ [t] }
  | .fetchComplete i res =>
      match s.inFlight.find? (fun p => p.1 == i) with
      | none => s
      | some _ =>
          let s1 := { s with inFlight := s.inFlight.eraseP (fun p => p.1 == i) }
          match res with
          | .ok data => { s1 with filteredCustomers := data }
          | .err _ => s1

/-- Run of the search session over a list of events. -/
def searchRun (s : SearchState) (evs : List SearchEvent) : SearchState :=
  evs.foldl searchStep s

/-- Concrete customer returned by the first (stale) resolution. -/
def custA : Customer := { id := "c1", name := "Alpha", customer_code := "A1" }

/-- Concrete customer returned by the second (fresh) resolution. -/
def custB : Customer := { id := "c2", name := "Beta", customer_code := "B2" }

/-- Trace in which two resolutions are in flight and the first
completes last: type a, timer fires (request 0), type ab, timer fires
(request 1), request 1 completes, request 0 completes. -/
def raceTrace : List SearchEvent :=
  [ .inputChange "a", .timerFire, .inputChange "ab", .timerFire,
    .fetchComplete 1 (.ok [custB]), .fetchComplete 0 (.ok [custA]) ]

/-- Trace in which the input is cleared while a resolution is in
flight, and the resolution then completes. -/
def clearTrace : List SearchEvent :=
  [ .inputChange "a", .timerFire, .inputChange "",
    .fetchComplete 0 (.ok [custA]) ]

/-- Dispatch log of a run only grows from the state's own dispatch log,
its currently pending timer, or timers scheduled during the run, whose
sequence numbers are at least the state's nextId. -/
theorem searchRun_dispatched_mem (evs : List SearchEvent) (s : SearchState)
    (p : Nat × String) (hp : p ∈ (searchRun s evs).dispatched) :
    p ∈ s.dispatched ∨ s.pendingTimer = some p ∨ s.nextId ≤ p.1 := by
  induction evs generalizing s with
  | nil => exact Or.inl hp
  | cons e evs ih =>
      have hstep := ih (searchStep s e) hp
      cases e with
      | inputChange q =>
          by_cases hq : q = ""
          · simp only [searchStep, if_pos hq] at hstep
            rcases hstep with h | h | h
            · exact Or.inl h
            · exact absurd h (by simp)
            · exact Or.inr (Or.inr h)
          · simp only [searchStep, if_neg hq] at hstep
            rcases hstep with h | h | h
            · exact Or.inl h
            · have : p = (s.nextId, q) := by simpa using h.symm
              exact Or.inr (Or.inr (by simp [this]))
            · exact Or.inr (Or.inr (Nat.le_of_succ_le h))
      | timerFire =>
          cases ht : s.pendingTimer with
          | none =>
              simp only [searchStep, ht] at hstep
              exact hstep
          | some t =>
              simp only [searchStep, ht] at hstep
              rcases hstep with h | h | h
              · rcases List.mem_append.1 h with h1 | h1
                · exact Or.inl h1
                · have hpt : p = t := by simpa using h1
                  subst hpt
                  exact Or.inr (Or.inl rfl)
              · exact absurd h (by simp)
              · exact Or.inr (Or.inr h)
      | fetchComplete i res =>
          simp only [searchStep] at hstep
          rcases hf : (s.inFlight.find? (fun p => p.1 == i)) with _ | q
          · rw [hf] at hstep
            exact hstep
          · rw [hf] at hstep
            cases res with
            | ok data => exact hstep
            | err msg => exact hstep

/-- C1: the completion handler does NOT discard superseded results.  In
raceTrace the resolution for input a is dispatched, then superseded by
the resolution for input ab, whose response arrives first; when the
stale response arrives last the handler applies it anyway, so the
displayed candidate list ends as the stale result set.  In clearTrace
the input is cleared while a resolution is in flight, and its late
response repopulates the list although the input is empty.  This
evaluates the code at the failing traces and refutes the claim that a
resolution completing after a newer dispatch, or after the input was
cleared, is not applied to the displayed list. -/
theorem searchRace_staleOverwrite_eval :
    (searchRun initialSearchState raceTrace).filteredCustomers = [custA] ∧
    (searchRun initialSearchState raceTrace).dispatched = [(0, "a"), (1, "ab")] ∧
    custA ≠ custB ∧
    (searchRun initialSearchState clearTrace).customerSearch = "" ∧
    (searchRun initialSearchState clearTrace).filteredCustomers = [custA] :=
  ⟨rfl, rfl, by decide, rfl, rfl⟩

/-- C2: on every input change the pending quiet-period (300 ms) timer
is cancelled — a previously pending resolution is never dispatched in
any continuation of the session; if the new input is non-empty exactly
one resolution carrying that string is scheduled, and one timer firing
dispatches exactly it (further firings are no-ops); if the new input is
empty the candidate list is cleared immediately and no request is
issued. -/
theorem debounce_inputChange_spec (s : SearchState) (q : String)
    (tOld : Nat × String) (evs : List SearchEvent) :
    DEBOUNCE_MS = 300 ∧
    (q ≠ "" →
      (searchStep s (.inputChange q)).pendingTimer = some (s.nextId, q) ∧
      (searchStep s (.inputChange q)).dispatched = s.dispatched ∧
      (searchStep (searchStep s (.inputChange q)) .timerFire).dispatched
        = s.dispatched ++ [(s.nextId, q)] ∧
      searchStep (searchStep (searchStep s (.inputChange q)) .timerFire) .timerFire
        = searchStep (searchStep s (.inputChange q)) .timerFire) ∧
    (q = "" →
      (searchStep s (.inputChange q)).pendingTimer = none ∧
      (searchStep s (.inputChange q)).filteredCustomers = [] ∧
      (searchStep s (.inputChange q)).dispatched = s.dispatched) ∧
    (s.pendingTimer = some tOld → tOld.1 < s.nextId → tOld ∉ s.dispatched →
      tOld ∉ (searchRun (searchStep s (.inputChange q)) evs).dispatched) := by
  refine ⟨rfl, fun hq => ?_, fun hq => ?_, fun _ hlt hnd hmem => ?_⟩
  · refine ⟨by simp [searchStep, hq], by simp [searchStep, hq], ?_, ?_⟩
    · simp [searchStep, hq]
    · simp [searchStep, hq]
  · exact ⟨by simp [searchStep, hq], by simp [searchStep, hq], by simp [searchStep, hq]⟩
  · rcases searchRun_dispatched_mem evs _ tOld hmem with h | h | h
    · by_cases hq : q = ""
      · simp only [searchStep, if_pos hq] at h
        exact hnd h
      · simp only [searchStep, if_neg hq] at h
        exact hnd h
    · by_cases hq : q = ""
      · simp [searchStep, hq] at h
      · simp only [searchStep, if_neg hq, Option.some.injEq] at h
        rw [← h] at hlt
        simp at hlt
    · by_cases hq : q = ""
      · simp only [searchStep, if_pos hq] at h
        exact Nat.lt_irrefl _ (Nat.lt_of_lt_of_le hlt h)
      · simp only [searchStep, if_neg hq] at h
        exact Nat.lt_irrefl _ (Nat.lt_of_lt_of_le hlt (Nat.le_of_succ_le h))

/-- Concrete session state with a pending resolution for input a, used
to instantiate the debounce theorem. -/
def debounceWitnessState : SearchState :=
  { customerSearch := "a", pendingTimer := some (0, "a"), inFlight := [],
    filteredCustomers := [], nextId := 1, dispatched := [] }

/-- Witness for the debounce theorem: changing the input to b schedules
one resolution carrying b, and the previously pending resolution for a
is never dispatched even if the timer event arrives afterwards. -/
theorem debounce_inputChange_spec_witness :
    (searchStep debounceWitnessState (.inputChange "b")).pendingTimer = some (1, "b") ∧
    (0, "a") ∉
      (searchRun (searchStep debounceWitnessState (.inputChange "b")) [.timerFire]).dispatched := by
  have h := debounce_inputChange_spec debounceWitnessState "b" (0, "a") [.timerFire]
  exact ⟨(h.2.1 (by decide)).1, h.2.2.2 rfl (by decide) (by decide)⟩

/-- C6: a failed resolution leaves the displayed candidate list (and
the input) unchanged; the error branch only logs. -/
theorem searchError_preservesResults (s : SearchState) (i : Nat) (msg : String) :
    (searchStep s (.fetchComplete i (.err msg))).filteredCustomers = s.filteredCustomers ∧
    (searchStep s (.fetchComplete i (.err msg))).customerSearch = s.customerSearch := by
  cases hf : s.inFlight.find? (fun p => p.1 == i) with
  | none => simp [searchStep, hf]
  | some p => simp [searchStep, hf]

/-! ## Filtered Paginated Report Loaders

Embeds fetchInserts of ProductInsertReporting and fetchReports of
CompetitorPriceAnalysisReport.  A composed remote query is modelled as
a list of conjunctive filters evaluated over rows of the backing
collection; remote-call failures are injected as booleans at each await
point; the React state variables touched by a call are threaded as an
explicit before/after state, and a ghost record observes which remote
queries the call actually issued. -/

/-- Page size of CompetitorPriceAnalysisReport. -/
def ITEMS_PER_PAGE_ANALYSIS : Nat := 5

/-- Page size of ProductInsertReporting. -/
def ITEMS_PER_PAGE_INSERTS : Nat := 6

/-- Page permission record (permission-table row for the page). -/
structure PagePermission where
  can_view : Bool
  can_create : Bool
deriving DecidableEq, Repr

/-- Truthiness of pagePermissions?.can_view: false when the permission
record is absent. -/
def canView : Option PagePermission → Bool
  | some p => p.can_view
  | none => false

/-- Truthiness of pagePermissions?.can_create: false when the
permission record is absent. -/
def canCreate : Option PagePermission → Bool
  | some p => p.can_create
  | none => false

/-- One conjunctive constraint of a composed remote query, as built by
the supabase query builder calls the views use. -/
inductive PFilter where
  | gte (field val : String)
  | lte (field val : String)
  | eqFilter (field val : String)
  | inFilter (field : String) (vals : List String)
deriving DecidableEq, Repr

/-- Evaluation of one filter against a row, given the row's field
lookup.  String comparison is the backend's lexicographic order on the
ISO-formatted timestamp columns the views filter on. -/
def evalPFilter (get : String → String) : PFilter → Bool
  | .gte f v => decide (v ≤ get f)
  | .lte f v => decide (get f ≤ v)
  | .eqFilter f v => get f == v
  | .inFilter f vs => vs.contains (get f)

/-- Conjunction of all filters of a composed query on one row. -/
def matchesAll (get : String → String) (fs : List PFilter) : Bool :=
  fs.all (evalPFilter get)

/-- Insertion into a list sorted descending by a string key; models the
order(field, descending) clause of the detail queries. -/
def insertDescBy (key : α → String) (r : α) : List α → List α
  | [] => [r]
  | x :: xs => if decide (key x ≤ key r) then r :: x :: xs else x :: insertDescBy key r xs

/-- Descending sort by a string key. -/
def sortDescBy (key : α → String) (l : List α) : List α :=
  l.foldr (insertDescBy key) []

/-- Slice selected by the range(startIndex, endIndex) clause, both
offsets inclusive. -/
def rangeSlice (l : List α) (startIndex endIndex : Nat) : List α :=
  (l.drop startIndex).take (endIndex + 1 - startIndex)

/-- Start offset of the requested page, (page - 1) * pageSize. -/
def pageStartIndex (page pageSize : Nat) : Nat := (page - 1) * pageSize

/-- End offset of the requested page, startIndex + pageSize - 1. -/
def pageEndIndex (page pageSize : Nat) : Nat := pageStartIndex page pageSize + pageSize - 1

/-- totalPages as computed by both views: the ceiling of the real
quotient totalCount / pageSize. -/
def totalPagesJS (totalCount pageSize : Nat) : Nat :=
  (⌈(totalCount : ℚ) / (pageSize : ℚ)⌉).toNat

/-- The previous control's disabled condition, currentPage === 1. -/
def prevDisabled (currentPage : Nat) : Bool := currentPage == 1

/-- The next control's disabled condition, currentPage === totalPages. -/
def nextDisabled (currentPage totalPages : Nat) : Bool := currentPage == totalPages

/-- The pagination controls are rendered only when totalPages > 1. -/
def controlsShown (totalPages : Nat) : Bool := decide (1 < totalPages)

/-- Membership-facet toggle shared by handleCustomerToggle and
handleProductFilterChange: copy the set, delete the identifier if
present, add it otherwise. -/
def toggleId (ids : Finset String) (i : String) : Finset String :=
  if i ∈ ids then ids.erase i else insert i ids

/-! ### CompetitorPriceAnalysisReport -/

/-- Row of the competitor_price_analysis collection, restricted to the
fields the report queries touch. -/
structure AnalysisRow where
  id : String
  analysis_date : String
  customer_id : String
deriving DecidableEq, Repr

/-- Row of the competitor_price_analysis_items collection, restricted
to the fields the stage-one lookup touches. -/
structure ItemRow where
  analysis_id : String
  product_id : String
deriving DecidableEq, Repr

/-- Field lookup on an analysis row by column name. -/
def analysisField (r : AnalysisRow) : String → String
  | "id" => r.id
  | "analysis_date" => r.analysis_date
  | "customer_id" => r.customer_id
  | _ => ""

/-- Filter facets of CompetitorPriceAnalysisReport; empty strings mean
an unset facet, matching the truthiness tests of the code. -/
structure AnalysisFilters where
  startDate : String
  endDate : String
  customerId : String
  productIds : Finset String
deriving DecidableEq

/-- initialFilters of CompetitorPriceAnalysisReport. -/
def analysisInitialFilters : AnalysisFilters :=
  { startDate := "", endDate := "", customerId := "", productIds := ∅ }

/-- Database visible to the report: the analyses collection and the
related items collection. -/
structure AnalysisDb where
  analyses : List AnalysisRow
  items : List ItemRow

/-- Failure injection for the three await points of fetchReports. -/
structure AnalysisErrs where
  itemErr : Bool
  idErr : Bool
  detailErr : Bool
deriving DecidableEq, Repr

/-- React state of the report touched by fetchReports. -/
structure AnalysisState where
  reports : List AnalysisRow
  totalCount : Nat
  loading : Bool
deriving DecidableEq

/-- Ghost observation of which remote queries one fetchReports call
issued, and whether the catch branch notified an error. -/
structure AnalysisGhost where
  itemQueryIssued : Bool
  idQueryIssued : Bool
  detailQueryIssued : Bool
  errorNotified : Bool
deriving DecidableEq, Repr

/-- Date/customer constraints of the analysis-ids query, in the order
fetchReports applies them (lines 96-98). -/
def analysisBaseFilters (f : AnalysisFilters) : List PFilter :=
  (if f.startDate ≠ "" then [PFilter.gte "analysis_date" (f.startDate ++ "T00:00:00.000Z")] else [])
  ++ (if f.endDate ≠ "" then [PFilter.lte "analysis_date" (f.endDate ++ "T23:59:59.999Z")] else [])
  ++ (if f.customerId ≠ "" then [PFilter.eqFilter "customer_id" f.customerId] else [])

/-- Stage-one lookup: analysis ids of items whose product_id is in the
membership facet. -/
def matchingAnalysisIds (items : List ItemRow) (productIds : Finset String) : List String :=
  (items.filter (fun i => decide (i.product_id ∈ productIds))).map (fun i => i.analysis_id)

/-- Full conjunctive constraint list of the analysis-ids query,
including the stage-one id-inclusion filter when the product membership
facet is non-empty (lines 100-105). -/
def analysisComposedFilters (db : AnalysisDb) (f : AnalysisFilters) : List PFilter :=
  if 0 < f.productIds.card then
    analysisBaseFilters f ++ [PFilter.inFilter "id" (matchingAnalysisIds db.items f.productIds)]
  else analysisBaseFilters f

/-- fetchReports of CompetitorPriceAnalysisReport (lines 87-132):
permission guard, stage-one related-items lookup when the product facet
is set, the counted analysis-ids query, the empty short-circuit, and
the paginated detail query; every failure lands in catch and the
finally clause clears loading. -/
def fetchReports (perm : Option PagePermission) (db : AnalysisDb) (page : Nat)
    (f : AnalysisFilters) (e : AnalysisErrs) (st : AnalysisState) :
    AnalysisState × AnalysisGhost :=
  if ¬ canView perm then
    ({ st with loading := false },
     { itemQueryIssued := false, idQueryIssued := false, detailQueryIssued := false,
       errorNotified := false })
  else
    let st1 := { st with loading := true }
    let productFacetSet : Bool := decide (0 < f.productIds.card)
    if productFacetSet ∧ e.itemErr then
      ({ st1 with loading := false },
       { itemQueryIssued := true, idQueryIssued := false, detailQueryIssued := false,
         errorNotified := true })
    else
      let filters := analysisComposedFilters db f
      if e.idErr then
        ({ st1 with loading := false },
         { itemQueryIssued := productFacetSet, idQueryIssued := true,
           detailQueryIssued := false, errorNotified := true })
      else
        let idData := db.analyses.filter (fun r => matchesAll (analysisField r) filters)
        let st2 := { st1 with totalCount := idData.length }
        if idData.isEmpty then
          ({ st2 with reports := [], loading := false },
           { itemQueryIssued := productFacetSet, idQueryIssued := true,
             detailQueryIssued := false, errorNotified := false })
        else if e.detailErr then
          ({ st2 with loading := false },
           { itemQueryIssued := productFacetSet, idQueryIssued := true,
             detailQueryIssued := true, errorNotified := true })
        else
          let ids := idData.map (fun r => r.id)
          let detailRows :=
            sortDescBy (fun r => r.analysis_date)
              (db.analyses.filter (fun r => ids.contains r.id))
          let pageRows :=
            rangeSlice detailRows (pageStartIndex page ITEMS_PER_PAGE_ANALYSIS)
              (pageEndIndex page ITEMS_PER_PAGE_ANALYSIS)
          ({ st2 with reports := pageRows, loading := false },
           { itemQueryIssued := productFacetSet, idQueryIssued := true,
             detailQueryIssued := true, errorNotified := false })

/-! ### ProductInsertReporting -/

/-- Row of the product_inserts collection, restricted to the fields
the report queries touch. -/
structure InsertRow where
  id : String
  customer_id : String
  product_name : String
  insert_price : Int
  start_date : String
  end_date : String
  created_at : String
deriving DecidableEq, Repr

/-- Field lookup on a product-insert row by column name. -/
def insertField (r : InsertRow) : String → String
  | "id" => r.id
  | "customer_id" => r.customer_id
  | "start_date" => r.start_date
  | "end_date" => r.end_date
  | "created_at" => r.created_at
  | _ => ""

/-- Filter facets of ProductInsertReporting. -/
structure InsertFilters where
  startDate : String
  endDate : String
  selectedCustomerIds : Finset String
deriving DecidableEq

/-- Composed constraint list of the product_inserts query (lines
127-135): start-date facet bounds end_date from below, end-date facet
bounds start_date from above, customer facet is id inclusion. -/
def insertQueryFilters (f : InsertFilters) : List PFilter :=
  (if f.startDate ≠ "" then [PFilter.gte "end_date" f.startDate] else [])
  ++ (if f.endDate ≠ "" then [PFilter.lte "start_date" f.endDate] else [])
  ++ (if 0 < f.selectedCustomerIds.card then
        [PFilter.inFilter "customer_id" (f.selectedCustomerIds.sort (· ≤ ·))]
      else [])

/-- React state of ProductInsertReporting touched by fetchInserts. -/
structure InsertsState where
  inserts : List InsertRow
  totalCount : Nat
  loading : Bool
deriving DecidableEq

/-- Ghost observation of one fetchInserts call. -/
structure InsertsGhost where
  queryIssued : Bool
  errorNotified : Bool
deriving DecidableEq, Repr

/-- fetchInserts of ProductInsertReporting (lines 116-151): permission
guard, single counted paginated query over the composed facets, catch
notifies, finally clears loading. -/
def fetchInserts (perm : Option PagePermission) (db : List InsertRow) (page : Nat)
    (f : InsertFilters) (queryErr : Bool) (st : InsertsState) :
    InsertsState × InsertsGhost :=
  if ¬ canView perm then
    ({ st with loading := false }, { queryIssued := false, errorNotified := false })
  else
    let st1 := { st with loading := true }
    if queryErr then
      ({ st1 with loading := false }, { queryIssued := true, errorNotified := true })
    else
      let matching := db.filter (fun r => matchesAll (insertField r) (insertQueryFilters f))
      let sorted := sortDescBy (fun r => r.created_at) matching
      let pageRows :=
        rangeSlice sorted (pageStartIndex page ITEMS_PER_PAGE_INSERTS)
          (pageEndIndex page ITEMS_PER_PAGE_INSERTS)
      ({ inserts := pageRows, totalCount := matching.length, loading := false },
       { queryIssued := true, errorNotified := false })

/-! ### ProductInsert handleSave -/

/-- Form state read by handleSave; insertPrice is none when the numeric
input is the empty string. -/
structure SaveForm where
  customerId : String
  productName : String
  insertPrice : Option Int
  startDate : String
  endDate : String
  photoFiles : List String
deriving DecidableEq, Repr

/-- Required-fields validation of handleSave (line 60). -/
def validSaveForm (form : SaveForm) : Bool :=
  form.customerId != "" && form.productName != "" && form.insertPrice.isSome
    && form.startDate != "" && form.endDate != ""

/-- Failure injection for the storage upload and the row insertion. -/
structure SaveErrs where
  uploadErr : Bool
  insertErr : Bool
deriving DecidableEq, Repr

/-- Ghost observation of one handleSave call. -/
structure SaveGhost where
  uploadIssued : Bool
  insertIssued : Bool
  errorNotified : Bool
  successNotified : Bool
deriving DecidableEq, Repr

/-- handleSave of ProductInsert (lines 58-108): permission guard,
required-fields and date-order validation before any remote call, photo
upload when files are present, row insertion, catch notifies the error,
finally clears isSaving.  Returns the final isSaving flag and the ghost
observation. -/
def handleSave (perm : Option PagePermission) (form : SaveForm) (e : SaveErrs)
    (isSaving : Bool) : Bool × SaveGhost :=
  if ¬ canCreate perm then
    (isSaving, { uploadIssued := false, insertIssued := false,
                 errorNotified := false, successNotified := false })
  else if ¬ validSaveForm form then
    (isSaving, { uploadIssued := false, insertIssued := false,
                 errorNotified := true, successNotified := false })
  else if decide (form.endDate < form.startDate) then
    (isSaving, { uploadIssued := false, insertIssued := false,
                 errorNotified := true, successNotified := false })
  else
    let hasPhotos : Bool := decide (form.photoFiles ≠ [])
    if hasPhotos ∧ e.uploadErr then
      (false, { uploadIssued := true, insertIssued := false,
                errorNotified := true, successNotified := false })
    else if e.insertErr then
      (false, { uploadIssued := hasPhotos, insertIssued := true,
                errorNotified := true, successNotified := false })
    else
      (false, { uploadIssued := hasPhotos, insertIssued := true,
                errorNotified := false, successNotified := true })

/-! ### Filter-state transitions of the two report views -/

/-- Filter facets plus page cursor of CompetitorPriceAnalysisReport. -/
structure AnalysisViewState where
  filters : AnalysisFilters
  currentPage : Nat
deriving DecidableEq

/-- One facet assignment, the value handleFilterChange writes. -/
inductive AnalysisFacetUpdate where
  | setStartDate (v : String)
  | setEndDate (v : String)
  | setCustomerId (v : String)
  | setProductIds (v : Finset String)

/-- handleFilterChange (lines 137-140): spread-update one facet and
reset the page cursor to 1. -/
def handleFilterChange (s : AnalysisViewState) : AnalysisFacetUpdate → AnalysisViewState
  | .setStartDate v => { filters := { s.filters with startDate := v }, currentPage := 1 }
  | .setEndDate v => { filters := { s.filters with endDate := v }, currentPage := 1 }
  | .setCustomerId v => { filters := { s.filters with customerId := v }, currentPage := 1 }
  | .setProductIds v => { filters := { s.filters with productIds := v }, currentPage := 1 }

/-- handleProductFilterChange (lines 142-147): toggle the product id in
a copy of the membership facet, then go through handleFilterChange. -/
def handleProductFilterChange (s : AnalysisViewState) (productId : String) :
    AnalysisViewState :=
  handleFilterChange s (.setProductIds (toggleId s.filters.productIds productId))

/-- handleResetFilters (lines 149-152). -/
def handleResetFiltersAnalysis (_s : AnalysisViewState) : AnalysisViewState :=
  { filters := analysisInitialFilters, currentPage := 1 }

/-- Previous-page button of the analysis report. -/
def prevPageAnalysis (s : AnalysisViewState) : AnalysisViewState :=
  { s with currentPage := s.currentPage - 1 }

/-- Next-page button of the analysis report. -/
def nextPageAnalysis (s : AnalysisViewState) : AnalysisViewState :=
  { s with currentPage := s.currentPage + 1 }

/-- Filter facets plus page cursor of ProductInsertReporting. -/
structure InsertsViewState where
  startDate : String
  endDate : String
  selectedCustomerIds : Finset String
  currentPage : Nat
deriving DecidableEq

/-- Start-date input handler of ProductInsertReporting (line 189). -/
def setStartDateInserts (s : InsertsViewState) (v : String) : InsertsViewState :=
  { s with startDate := v, currentPage := 1 }

/-- End-date input handler of ProductInsertReporting (line 190). -/
def setEndDateInserts (s : InsertsViewState) (v : String) : InsertsViewState :=
  { s with endDate := v, currentPage := 1 }

/-- handleCustomerToggle (lines 161-167): toggle the customer id in a
copy of the membership facet, then reset the page cursor to 1. -/
def handleCustomerToggle (s : InsertsViewState) (i : String) : InsertsViewState :=
  { s with selectedCustomerIds := toggleId s.selectedCustomerIds i, currentPage := 1 }

/-- handleResetFilters of ProductInsertReporting (lines 169-174). -/
def handleResetFiltersInserts (_s : InsertsViewState) : InsertsViewState :=
  { startDate := "", endDate := "", selectedCustomerIds := ∅, currentPage := 1 }

/-- Previous-page button of ProductInsertReporting. -/
def prevPageInserts (s : InsertsViewState) : InsertsViewState :=
  { s with currentPage := s.currentPage - 1 }

/-- Next-page button of ProductInsertReporting. -/
def nextPageInserts (s : InsertsViewState) : InsertsViewState :=
  { s with currentPage := s.currentPage + 1 }

/-! ## Theorems about the report loaders -/

/-- The ceiling of the real quotient computed by the views equals the
natural ceiling division. -/
theorem totalPagesJS_eq_ceilDiv (tc ps : Nat) (h : 0 < ps) :
    totalPagesJS tc ps = (tc + ps - 1) / ps := by
  have hq : (0 : ℚ) < (ps : ℚ) := by exact_mod_cast h
  have he : tc ⌈/⌉ ps = (tc + ps - 1) / ps := Nat.ceilDiv_eq_add_pred_div tc ps
  have h1 : tc ≤ ps * ((tc + ps - 1) / ps) := (ceilDiv_le_iff_le_mul h).1 (le_of_eq he)
  have h2 : ∀ c, tc ≤ ps * c → (tc + ps - 1) / ps ≤ c := fun c hc =>
    he ▸ (ceilDiv_le_iff_le_mul h).2 hc
  have hceil : ⌈(tc : ℚ) / (ps : ℚ)⌉ = (((tc + ps - 1) / ps : Nat) : ℤ) := by
    apply le_antisymm
    · rw [Int.ceil_le, div_le_iff₀ hq]
      push_cast
      calc (tc : ℚ) ≤ ((ps * ((tc + ps - 1) / ps) : Nat) : ℚ) := by exact_mod_cast h1
        _ = (((tc + ps - 1) / ps : Nat) : ℚ) * (ps : ℚ) := by push_cast; ring
    · by_cases h0 : (tc + ps - 1) / ps = 0
      · rw [h0]
        exact_mod_cast Int.ceil_nonneg (by positivity)
      · have h3 : ps * ((tc + ps - 1) / ps - 1) < tc := by
          by_contra hcon
          push_neg at hcon
          have := h2 ((tc + ps - 1) / ps - 1) hcon
          omega
        have hlt : ((((tc + ps - 1) / ps : Nat) : ℤ) - 1) < ⌈(tc : ℚ) / (ps : ℚ)⌉ := by
          rw [Int.lt_ceil, lt_div_iff₀ hq]
          have hone : 1 ≤ (tc + ps - 1) / ps := Nat.one_le_iff_ne_zero.2 h0
          push_cast
          calc ((((tc + ps - 1) / ps : Nat) : ℚ) - 1) * (ps : ℚ)
              = (((tc + ps - 1) / ps - 1 : Nat) : ℚ) * (ps : ℚ) := by
                rw [Nat.cast_sub hone]; push_cast; ring
            _ = ((ps * ((tc + ps - 1) / ps - 1) : Nat) : ℚ) := by push_cast; ring
            _ < (tc : ℚ) := by exact_mod_cast h3
        omega
  rw [totalPagesJS, hceil]
  omega

/-- C4: totalPages is the ceiling of totalCount over pageSize; the
previous control is disabled exactly at page 1 and the next control
exactly at totalPages, the controls being rendered only when
totalPages exceeds 1; the requested page slice spans offsets
(page-1)*pageSize through page*pageSize-1; and in the concrete
scenario pageSize 5, 12 matching records, page 3 the returned page has
exactly 2 records, totalPages is 3, next is disabled and previous
enabled. -/
theorem pagination_bounds_spec (tc ps page : Nat) (l : List InsertRow)
    (hps : 0 < ps) (hpage : 0 < page) (hl : l.length = 12) :
    totalPagesJS tc ps = (tc + ps - 1) / ps ∧
    (prevDisabled page = true ↔ page = 1) ∧
    (∀ tp, nextDisabled page tp = true ↔ page = tp) ∧
    (∀ tp, controlsShown tp = false ↔ tp ≤ 1) ∧
    pageStartIndex page ps = (page - 1) * ps ∧
    pageEndIndex page ps = page * ps - 1 ∧
    (rangeSlice l (pageStartIndex 3 5) (pageEndIndex 3 5)).length = 2 ∧
    totalPagesJS 12 5 = 3 ∧
    nextDisabled 3 (totalPagesJS 12 5) = true ∧
    prevDisabled 3 = false ∧
    controlsShown (totalPagesJS 12 5) = true := by
  have h125 : totalPagesJS 12 5 = 3 :=
    (totalPagesJS_eq_ceilDiv 12 5 (by norm_num)).trans (by norm_num)
  refine ⟨totalPagesJS_eq_ceilDiv tc ps hps, by simp [prevDisabled],
    fun tp => by simp [nextDisabled],
    fun tp => by simp only [controlsShown, decide_eq_false_iff_not, Nat.not_lt],
    rfl, ?_, ?_, h125, by rw [h125]; rfl, rfl, by rw [h125]; rfl⟩
  · obtain ⟨p, rfl⟩ : ∃ p, page = p + 1 := ⟨page - 1, by omega⟩
    simp [pageEndIndex, pageStartIndex, Nat.succ_mul]
  · simp [rangeSlice, pageStartIndex, pageEndIndex, hl]

/-- Sample record used to instantiate the pagination theorem. -/
def sampleInsertRow : InsertRow :=
  { id := "i1", customer_id := "c1", product_name := "P", insert_price := 10,
    start_date := "2024-01-01", end_date := "2024-02-01",
    created_at := "2024-01-01T00:00:00Z" }

/-- Witness for the pagination theorem: the concrete scenario on a
concrete list of 12 records. -/
theorem pagination_bounds_spec_witness :
    (rangeSlice (List.replicate 12 sampleInsertRow)
        (pageStartIndex 3 5) (pageEndIndex 3 5)).length = 2 ∧
    totalPagesJS 12 5 = 3 ∧
    nextDisabled 3 (totalPagesJS 12 5) = true ∧
    prevDisabled 3 = false := by
  obtain ⟨-, -, -, -, -, -, h7, h8, h9, h10, -⟩ :=
    pagination_bounds_spec 12 5 3 (List.replicate 12 sampleInsertRow)
      (by norm_num) (by norm_num) (by simp)
  exact ⟨h7, h8, h9, h10⟩

/-- C3: when the stage-one lookup against the related items collection
yields zero qualifying parent analysis identifiers, the paginated
detail query is never issued, the displayed page is empty and
totalCount is 0. -/
theorem twoStage_emptyStageOne_shortCircuit (perm : Option PagePermission)
    (db : AnalysisDb) (page : Nat) (f : AnalysisFilters) (e : AnalysisErrs)
    (st : AnalysisState)
    (hv : canView perm = true)
    (hp : 0 < f.productIds.card)
    (hie : e.itemErr = false)
    (hid : e.idErr = false)
    (hm : matchingAnalysisIds db.items f.productIds = []) :
    (fetchReports perm db page f e st).2.detailQueryIssued = false ∧
    (fetchReports perm db page f e st).1.reports = [] ∧
    (fetchReports perm db page f e st).1.totalCount = 0 := by
  have hempty : db.analyses.filter
      (fun r => matchesAll (analysisField r) (analysisComposedFilters db f)) = [] := by
    apply List.filter_eq_nil_iff.2
    intro r _
    simp [analysisComposedFilters, hp, matchesAll, hm, evalPFilter]
  refine ⟨?_, ?_, ?_⟩ <;>
    simp [fetchReports, hv, hp, hie, hid, hempty]

/-- Concrete database for the two-stage short-circuit: one analysis
row, and one item row whose product does not match the facet. -/
def stageOneDb : AnalysisDb :=
  { analyses := [{ id := "a1", analysis_date := "2024-01-05", customer_id := "c1" }],
    items := [{ analysis_id := "a1", product_id := "p2" }] }

/-- Product membership facet selecting a product no item references. -/
def stageOneFilters : AnalysisFilters :=
  { startDate := "", endDate := "", customerId := "", productIds := {"p1"} }

/-- Witness for the two-stage short-circuit theorem at a concrete
database and facet set. -/
theorem twoStage_emptyStageOne_shortCircuit_witness :
    (fetchReports (some { can_view := true, can_create := true }) stageOneDb 1
        stageOneFilters { itemErr := false, idErr := false, detailErr := false }
        { reports := [], totalCount := 7, loading := false }).2.detailQueryIssued = false ∧
    (fetchReports (some { can_view := true, can_create := true }) stageOneDb 1
        stageOneFilters { itemErr := false, idErr := false, detailErr := false }
        { reports := [], totalCount := 7, loading := false }).1.totalCount = 0 := by
  obtain ⟨h1, -, h3⟩ :=
    twoStage_emptyStageOne_shortCircuit (some { can_view := true, can_create := true })
      stageOneDb 1 stageOneFilters { itemErr := false, idErr := false, detailErr := false }
      { reports := [], totalCount := 7, loading := false }
      rfl (by decide) rfl rfl (by decide)
  exact ⟨h1, h3⟩

/-- C5: every facet mutation in either report view resets the page
cursor to 1, and page navigation leaves every facet value unchanged. -/
theorem facetChange_resetsPage_navPreservesFacets
    (s : AnalysisViewState) (u : AnalysisFacetUpdate) (i : String)
    (t : InsertsViewState) (v : String) :
    (handleFilterChange s u).currentPage = 1 ∧
    (handleProductFilterChange s i).currentPage = 1 ∧
    (handleResetFiltersAnalysis s).currentPage = 1 ∧
    (prevPageAnalysis s).filters = s.filters ∧
    (nextPageAnalysis s).filters = s.filters ∧
    (setStartDateInserts t v).currentPage = 1 ∧
    (setEndDateInserts t v).currentPage = 1 ∧
    (handleCustomerToggle t i).currentPage = 1 ∧
    (handleResetFiltersInserts t).currentPage = 1 ∧
    (prevPageInserts t).startDate = t.startDate ∧
    (prevPageInserts t).endDate = t.endDate ∧
    (prevPageInserts t).selectedCustomerIds = t.selectedCustomerIds ∧
    (nextPageInserts t).startDate = t.startDate ∧
    (nextPageInserts t).endDate = t.endDate ∧
    (nextPageInserts t).selectedCustomerIds = t.selectedCustomerIds := by
  refine ⟨?_, rfl, rfl, rfl, rfl, rfl, rfl, rfl, rfl, rfl, rfl, rfl, rfl, rfl, rfl⟩
  cases u <;> rfl

/-- C7: with only the start date of the date-range facet set, the
composed query of either report constrains the relevant end/occurrence
field with a lower bound at the start of that day, and applies no
upper bound. -/
theorem startDateOnly_lowerBoundOnly (db : AnalysisDb) (f : AnalysisFilters)
    (g : InsertFilters)
    (hf1 : f.startDate ≠ "") (hf2 : f.endDate = "")
    (hg1 : g.startDate ≠ "") (hg2 : g.endDate = "") :
    PFilter.gte "analysis_date" (f.startDate ++ "T00:00:00.000Z")
        ∈ analysisComposedFilters db f ∧
    (∀ fld v, PFilter.lte fld v ∉ analysisComposedFilters db f) ∧
    PFilter.gte "end_date" g.startDate ∈ insertQueryFilters g ∧
    (∀ fld v, PFilter.lte fld v ∉ insertQueryFilters g) := by
  refine ⟨?_, fun fld v => ?_, ?_, fun fld v => ?_⟩
  · by_cases hc : 0 < f.productIds.card <;>
      by_cases hcid : f.customerId = "" <;>
        simp [analysisComposedFilters, analysisBaseFilters, hc, hcid, hf1, hf2]
  · by_cases hc : 0 < f.productIds.card <;>
      by_cases hcid : f.customerId = "" <;>
        simp [analysisComposedFilters, analysisBaseFilters, hc, hcid, hf1, hf2]
  · by_cases hcs : 0 < g.selectedCustomerIds.card <;>
      simp [insertQueryFilters, hcs, hg1, hg2]
  · by_cases hcs : 0 < g.selectedCustomerIds.card <;>
      simp [insertQueryFilters, hcs, hg1, hg2]

/-- Date-range facet of the analysis report with only the start date
set. -/
def startOnlyAnalysisFilters : AnalysisFilters :=
  { startDate := "2024-01-01", endDate := "", customerId := "", productIds := ∅ }

/-- Date-range facet of the inserts report with only the start date
set. -/
def startOnlyInsertFilters : InsertFilters :=
  { startDate := "2024-01-01", endDate := "", selectedCustomerIds := ∅ }

/-- Witness for the date-bound theorem at the concrete facet
2024-01-01. -/
theorem startDateOnly_lowerBoundOnly_witness :
    PFilter.gte "analysis_date" "2024-01-01T00:00:00.000Z"
        ∈ analysisComposedFilters { analyses := [], items := [] } startOnlyAnalysisFilters ∧
    PFilter.lte "analysis_date" "2024-12-31T23:59:59.999Z"
        ∉ analysisComposedFilters { analyses := [], items := [] } startOnlyAnalysisFilters ∧
    PFilter.gte "end_date" "2024-01-01" ∈ insertQueryFilters startOnlyInsertFilters := by
  obtain ⟨h1, h2, h3, -⟩ :=
    startDateOnly_lowerBoundOnly { analyses := [], items := [] }
      startOnlyAnalysisFilters startOnlyInsertFilters
      (by decide) rfl (by decide) rfl
  exact ⟨h1, h2 "analysis_date" "2024-12-31T23:59:59.999Z", h3⟩

/-- C8: every execution of a report load or of handleSave terminates
with the in-flight flag cleared, whatever combination of remote-call
failures occurs, because the guard path clears it explicitly and every
try path runs the finally clause. -/
theorem inFlightFlag_alwaysCleared (permA : Option PagePermission) (db : AnalysisDb)
    (pageA : Nat) (fA : AnalysisFilters) (eA : AnalysisErrs) (stA : AnalysisState)
    (permI : Option PagePermission) (dbI : List InsertRow) (pageI : Nat)
    (fI : InsertFilters) (queryErr : Bool) (stI : InsertsState)
    (permS : Option PagePermission) (form : SaveForm) (eS : SaveErrs) :
    (fetchReports permA db pageA fA eA stA).1.loading = false ∧
    (fetchInserts permI dbI pageI fI queryErr stI).1.loading = false ∧
    (handleSave permS form eS false).1 = false := by
  refine ⟨?_, ?_, ?_⟩
  · unfold fetchReports
    dsimp only
    split_ifs <;> rfl
  · unfold fetchInserts
    dsimp only
    split_ifs <;> rfl
  · unfold handleSave
    dsimp only
    split_ifs <;> rfl

/-- C9: with can_view false or the permission record absent, the report
fetches issue no remote query and clear the loading flag; with
can_create false, handleSave issues neither the upload nor the
insert. -/
theorem permissionGate_noRemote (permA : Option PagePermission) (db : AnalysisDb)
    (pageA : Nat) (fA : AnalysisFilters) (eA : AnalysisErrs) (stA : AnalysisState)
    (permI : Option PagePermission) (dbI : List InsertRow) (pageI : Nat)
    (fI : InsertFilters) (queryErr : Bool) (stI : InsertsState)
    (permS : Option PagePermission) (form : SaveForm) (eS : SaveErrs) (sv : Bool)
    (hA : canView permA = false) (hI : canView permI = false)
    (hS : canCreate permS = false) :
    (fetchReports permA db pageA fA eA stA).2 =
      { itemQueryIssued := false, idQueryIssued := false, detailQueryIssued := false,
        errorNotified := false } ∧
    (fetchReports permA db pageA fA eA stA).1.loading = false ∧
    (fetchInserts permI dbI pageI fI queryErr stI).2 =
      { queryIssued := false, errorNotified := false } ∧
    (fetchInserts permI dbI pageI fI queryErr stI).1.loading = false ∧
    (handleSave permS form eS sv).2.uploadIssued = false ∧
    (handleSave permS form eS sv).2.insertIssued = false := by
  refine ⟨?_, ?_, ?_, ?_, ?_, ?_⟩ <;>
    simp [fetchReports, fetchInserts, handleSave, hA, hI, hS]

/-- Form state used to instantiate the permission-gate theorem. -/
def emptySaveForm : SaveForm :=
  { customerId := "", productName := "", insertPrice := none,
    startDate := "", endDate := "", photoFiles := [] }

/-- Witness for the permission-gate theorem with the permission record
absent everywhere. -/
theorem permissionGate_noRemote_witness :
    (fetchReports none { analyses := [], items := [] } 1 analysisInitialFilters
        { itemErr := false, idErr := false, detailErr := false }
        { reports := [], totalCount := 0, loading := true }).2 =
      { itemQueryIssued := false, idQueryIssued := false, detailQueryIssued := false,
        errorNotified := false } ∧
    (fetchInserts none [] 1 { startDate := "", endDate := "", selectedCustomerIds := ∅ }
        false { inserts := [], totalCount := 0, loading := true }).2 =
      { queryIssued := false, errorNotified := false } ∧
    (handleSave none emptySaveForm { uploadErr := false, insertErr := false } false).2.uploadIssued
      = false := by
  obtain ⟨h1, -, h3, -, h5, -⟩ :=
    permissionGate_noRemote none { analyses := [], items := [] } 1 analysisInitialFilters
      { itemErr := false, idErr := false, detailErr := false }
      { reports := [], totalCount := 0, loading := true }
      none [] 1 { startDate := "", endDate := "", selectedCustomerIds := ∅ } false
      { inserts := [], totalCount := 0, loading := true }
      none emptySaveForm { uploadErr := false, insertErr := false } false
      rfl rfl rfl
  exact ⟨h1, h3, h5⟩

/-- C10: the membership-facet toggle is an involution up to set
equality, adding the identifier exactly when absent and removing it
exactly when present, for every identifier including the empty
string. -/
theorem toggle_involution (S : Finset String) (i x : String) :
    toggleId (toggleId S i) i = S ∧
    (i ∈ toggleId S i ↔ i ∉ S) ∧
    (x ∈ toggleId S i ↔ (x = i ∧ i ∉ S) ∨ (x ≠ i ∧ x ∈ S)) := by
  by_cases h : i ∈ S
  · refine ⟨?_, ?_, ?_⟩
    · have h1 : toggleId S i = S.erase i := if_pos h
      have h2 : i ∉ S.erase i := by simp
      rw [h1, toggleId, if_neg h2]
      exact Finset.insert_erase h
    · simp [toggleId, h]
    · simp [toggleId, h]
  · refine ⟨?_, ?_, ?_⟩
    · simp [toggleId, h, Finset.erase_insert h]
    · simp [toggleId, h]
    · simp [toggleId, h]
      tauto

end NbrGroup
